import Mathlib

/-!
Verification development for the FastToggle repository
(`src/_system/scripts/toggle_automation.py` and
`src/_system/scripts/check_status.py`).

The two Python scripts drive a browser through Playwright.  Every browser
primitive (waiting for a selector, reloading, reading a checkbox, clicking)
either returns a value or raises an exception; we embed each primitive call
site as an `Except String α` oracle field — `Except.error e` means the call
raised an exception whose text is `e`.  Fixed sleeps (`wait_for_timeout`)
and the popup dismisser (`dismiss_popups`, which swallows all its own
exceptions and never affects the result) are no-ops for the result and are
therefore not part of the oracle.  Wall-clock timestamp fields
(`updated_at` / `checked_at`) are omitted.

Side effects that the claims talk about (page reloads, toggle clicks, save
clicks, page opens/closes) are made observable as explicit event traces.
-/

/-- Python `str.lower()` for the ASCII data this program handles. -/
def pyLower (s : String) : String := ⟨s.data.map Char.toLower⟩

/-- Python `str.upper()` for the ASCII data this program handles. -/
def pyUpper (s : String) : String := ⟨s.data.map Char.toUpper⟩

/-- Python `str.strip()`: remove leading and trailing whitespace. -/
def pyStrip (s : String) : String :=
  ⟨((s.data.dropWhile Char.isWhitespace).reverse.dropWhile Char.isWhitespace).reverse⟩

/-- Python `s[:n]`. -/
def pyTake (s : String) (n : Nat) : String := ⟨s.data.take n⟩

/-- Batch size for processing URLs (`BATCH_SIZE = 5` in both scripts). -/
def BATCH_SIZE : Nat := 5

/-- Observable interaction events emitted by one `set_toggle_state` /
`check_toggle_status` invocation.  `reload` is the reload-and-retry cycle;
`toggleClick` / `saveClick` are click attempts issued to the page. -/
inductive Ev where
  | reload
  | toggleClick
  | saveClick
deriving DecidableEq, Repr

/-- Oracle for one save-button selector iteration of the save loop
(`toggle_automation.py` lines 319-336): result of `locator(sel).count()`,
of `page.click(sel)`, and of the fallback `click(force=True)`. -/
structure SaveSel where
  cnt : Except String Nat
  clickA : Except String Unit
  clickB : Except String Unit

/-- Environment oracle for one `ToggleAutomation.set_toggle_state` call:
the outcome of every fallible browser primitive on its code path, in source
order (`toggle_automation.py` lines 249-364). -/
structure ToggleEnv where
  /-- `page.wait_for_selector(toggle_selector)` on attempt 0 (line 267). -/
  waitSel0 : Except String Unit
  /-- `page.reload(...)` inside the retry branch (line 273). -/
  reloadCall : Except String Unit
  /-- `page.wait_for_selector(toggle_selector)` on attempt 1. -/
  waitSel1 : Except String Unit
  /-- `toggle.count()` (line 285). -/
  countToggle : Except String Nat
  /-- `toggle.is_checked()` before mutation (line 289). -/
  isCheckedBefore : Except String Bool
  /-- `page.click(toggle_selector)` (line 306). -/
  clickToggle : Except String Unit
  /-- fallback `locator.first.click(force=True)` (line 309). -/
  forceClickToggle : Except String Unit
  /-- per-selector oracles for the save loop; the source list has the two
  selectors `Save Integration` and `Save` (lines 319-322). -/
  saveSels : List SaveSel
  /-- unguarded `page.wait_for_load_state("networkidle")` after save (line 343). -/
  waitAfterSave : Except String Unit
  /-- `locator.first.is_checked()` after save (line 347). -/
  isCheckedAfter : Except String Bool

/-- One result record of `toggle_automation.py` (the dict built at lines
230-238; `userid` is added by `process_batch` at line 424; the wall-clock
`updated_at` field is omitted). -/
structure TAResult where
  url : String
  userid : String
  status : String
  desired_state : String
  toggle_state_before : String
  toggle_state_after : String
  message : String
deriving DecidableEq, Repr

/-- The wait-for-toggle retry loop shared verbatim by both scripts
(`toggle_automation.py` lines 263-277, `check_status.py` lines 240-254):
two attempts; between them one reload (whose exception propagates to the
enclosing handler), a settle wait and a popup dismissal (both no-ops here).
Returns whether the toggle was found, or the propagated exception, plus the
reload events performed. -/
def waitRetry (w0 rl w1 : Except String Unit) : Except String Bool × List Ev :=
  match w0 with
  | .ok _ => (.ok true, [])
  | .error _ =>
    match rl with
    | .error e => (.error e, [.reload])
    | .ok _ =>
      match w1 with
      | .ok _ => (.ok true, [.reload])
      | .error _ => (.ok false, [.reload])

/-- The save loop of `set_toggle_state` (lines 324-336): for each selector,
if `count()` raises, continue; if the count is 0, continue; otherwise click
(normal click, then forced click; if both raise, the outer handler catches
and the loop continues).  Returns `saved` and the click attempts issued. -/
def saveLoop : List SaveSel → Bool × List Ev
  | [] => (false, [])
  | s :: rest =>
    match s.cnt with
    | .error _ => saveLoop rest
    | .ok n =>
      if n = 0 then saveLoop rest
      else
        match s.clickA with
        | .ok _ => (true, [.saveClick])
        | .error _ =>
          match s.clickB with
          | .ok _ => (true, [.saveClick])
          | .error _ =>
            let r := saveLoop rest
            (r.1, .saveClick :: r.2)

/-- Body of `set_toggle_state` after the desired-state validation
(`toggle_automation.py` lines 249-364): the outer `try` block whose
`except` sets status `error` with the raw exception text (line 360-361).
`r0` is the pre-built result record, `dUp` the normalized desired state in
upper case, `dc` the `desired_checked` boolean. -/
def togglePath (env : ToggleEnv) (r0 : TAResult) (dUp : String) (dc : Bool) :
    TAResult × List Ev :=
  match waitRetry env.waitSel0 env.reloadCall env.waitSel1 with
  | (.error e, evs) => ({ r0 with status := "error", message := e }, evs)
  | (.ok false, evs) =>
    ({ r0 with message := "Toggle element not found (timeout waiting for element after retry)" },
      evs)
  | (.ok true, evs) =>
    match env.countToggle with
    | .error e => ({ r0 with status := "error", message := e }, evs)
    | .ok 0 => ({ r0 with message := "Toggle element not found" }, evs)
    | .ok (_ + 1) =>
      match env.isCheckedBefore with
      | .error e => ({ r0 with status := "error", message := e }, evs)
      | .ok b =>
        let bs := if b then "ON" else "OFF"
        let r1 := { r0 with toggle_state_before := bs }
        if b = dc then
          ({ r1 with
              status := "success"
              toggle_state_after := bs
              message := "Already in desired state: " ++ dUp }, evs)
        else
          match (match env.clickToggle with
                 | .ok _ => Except.ok ()
                 | .error _ => env.forceClickToggle) with
          | .error e =>
            ({ r1 with status := "error", message := e }, evs ++ [.toggleClick])
          | .ok _ =>
            match saveLoop env.saveSels with
            | (false, sevs) =>
              ({ r1 with message := "Save button not found" },
                evs ++ [.toggleClick] ++ sevs)
            | (true, sevs) =>
              let evs2 := evs ++ [.toggleClick] ++ sevs
              match env.waitAfterSave with
              | .error e => ({ r1 with status := "error", message := e }, evs2)
              | .ok _ =>
                match env.isCheckedAfter with
                | .error e => ({ r1 with status := "error", message := e }, evs2)
                | .ok a =>
                  let as2 := if a then "ON" else "OFF"
                  if a = dc then
                    ({ r1 with
                        status := "success"
                        toggle_state_after := as2
                        message := "Toggle set to " ++ dUp ++ " (was " ++ bs ++ ")" }, evs2)
                  else
                    ({ r1 with
                        status := "failed"
                        toggle_state_after := as2
                        message := "Failed to set toggle to " ++ dUp ++ ". Current state: " ++ as2 }, evs2)

/-- `ToggleAutomation.set_toggle_state(page, url, desired_state)`
(`toggle_automation.py` lines 228-364).  Builds the initial record (status
`failed`, both states `UNKNOWN`, `desired_state` the raw argument
upper-cased), validates the stripped, lower-cased desired state (skipping
with status `skipped` when it is neither `on` nor `off`), and otherwise runs
the toggle path.  Also returns the trace of interaction events. -/
def set_toggle_state (env : ToggleEnv) (url ds : String) : TAResult × List Ev :=
  let r0 : TAResult :=
    { url := url, userid := "", status := "failed",
      desired_state := pyUpper ds,
      toggle_state_before := "UNKNOWN", toggle_state_after := "UNKNOWN",
      message := "" }
  let d := pyLower (pyStrip ds)
  if d = "on" ∨ d = "off" then
    togglePath env r0 (pyUpper d) (d = "on")
  else
    ({ r0 with
        status := "skipped"
        message := "Invalid toggle value: " ++ d ++ ". Expected ON or OFF." }, [])

/-- `url.split('/')[-1]` as used for `url_short`: the suffix after the
last slash (the whole string when there is none). -/
def urlShort (u : String) : String :=
  ⟨((u.data.reverse.takeWhile fun c => !(c == '/'))).reverse⟩

/-- Environment oracle for one `StatusChecker.check_toggle_status` call
(`check_status.py` lines 216-276). -/
structure CheckEnv where
  /-- `page.wait_for_selector(toggle_selector)` on attempt 0 (line 244). -/
  waitSel0 : Except String Unit
  /-- `page.reload(...)` inside the retry branch (line 250). -/
  reloadCall : Except String Unit
  /-- `page.wait_for_selector(toggle_selector)` on attempt 1. -/
  waitSel1 : Except String Unit
  /-- `toggle.count()` (line 263). -/
  countToggle : Except String Nat
  /-- `toggle.is_checked()` (line 264). -/
  isChecked : Except String Bool

/-- One result record of `check_status.py` (the dict built at lines
218-224; the wall-clock `checked_at` field is omitted). -/
structure CSResult where
  url : String
  url_short : String
  toggle_status : String
  message : String
deriving DecidableEq, Repr

/-- `StatusChecker.check_toggle_status(page, url)` (`check_status.py` lines
216-276): waits for the toggle with one reload-retry, then reads its state;
any exception escaping to the outer handler yields `ERROR` with the raw
exception text (lines 271-273). -/
def check_toggle_status (env : CheckEnv) (url : String) : CSResult × List Ev :=
  let r0 : CSResult :=
    { url := url, url_short := urlShort url, toggle_status := "UNKNOWN", message := "" }
  match waitRetry env.waitSel0 env.reloadCall env.waitSel1 with
  | (.error e, evs) => ({ r0 with toggle_status := "ERROR", message := e }, evs)
  | (.ok false, evs) =>
    ({ r0 with
        toggle_status := "NOT_FOUND"
        message := "Toggle element not found (timeout waiting for element after retry)" }, evs)
  | (.ok true, evs) =>
    match env.countToggle with
    | .error e => ({ r0 with toggle_status := "ERROR", message := e }, evs)
    | .ok 0 =>
      ({ r0 with
          toggle_status := "NOT_FOUND"
          message := "Toggle element not found on page" }, evs)
    | .ok (_ + 1) =>
      match env.isChecked with
      | .error e => ({ r0 with toggle_status := "ERROR", message := e }, evs)
      | .ok b =>
        ({ r0 with
            toggle_status := if b then "ON" else "OFF"
            message := "Status checked successfully" }, evs)

/-- Behaviour of the evaluation phase for one successfully-opened page in
`ToggleAutomation.process_batch` (lines 419-443): either the preamble
(`bring_to_front` / settle wait) raises — caught at the batch boundary with
message `Error: <text>[:100]` — or `set_toggle_state` runs with the given
page oracle (it catches its own exceptions and never raises). -/
inductive EvalSpec where
  | raises (msg : String)
  | runs (env : ToggleEnv)

/-- Behaviour of the page-opening phase for one task (lines 381-402):
`ok` — `new_page` and `goto` both succeed; `newPageFails` — `new_page`
itself raises (no page is created); `gotoFails` — the page is created but
`goto` raises, so an open page exists that the script never closes. -/
inductive OpenSpec where
  | ok (eval : EvalSpec)
  | newPageFails (msg : String)
  | gotoFails (msg : String)

/-- One input row for `ToggleAutomation.process_batch`, with the oracle
describing how the environment behaves for this task. -/
structure TaskSpec where
  url : String
  userid : String
  behavior : OpenSpec

/-- The record appended when a page fails to open
(`toggle_automation.py` lines 391-400). -/
def openFailRecord (st url userid msg : String) : TAResult :=
  { url := url, userid := userid, status := "error", desired_state := st,
    toggle_state_before := "UNKNOWN", toggle_state_after := "UNKNOWN",
    message := "Failed to open page: " ++ pyTake msg 100 }

/-- The record appended when the evaluation phase raises at the batch
boundary (`toggle_automation.py` lines 432-443). -/
def evalFailRecord (st url userid msg : String) : TAResult :=
  { url := url, userid := userid, status := "error", desired_state := st,
    toggle_state_before := "UNKNOWN", toggle_state_after := "UNKNOWN",
    message := "Error: " ++ pyTake msg 100 }

/-- Result of evaluating one successfully-opened page (lines 419-443):
either the batch-boundary error record or `set_toggle_state`'s record with
`userid` filled in (line 424). -/
def evalPage (st : String) (t : TaskSpec) (e : EvalSpec) : TAResult :=
  match e with
  | .raises m => evalFailRecord st t.url t.userid m
  | .runs env => { (set_toggle_state env t.url st).1 with userid := t.userid }

/-- `ToggleAutomation.process_batch` (lines 366-450), restricted to the
result records it appends to `self.results`.  Phase 1 iterates the batch
opening pages, appending an error record immediately for every task whose
page fails to open; phase 2 then evaluates the successfully-opened pages in
order and appends one record each.  `st` is `self.state`. -/
def process_batch (st : String) (batch : List TaskSpec) : List TAResult :=
  (batch.filterMap fun t =>
    match t.behavior with
    | .ok _ => none
    | .newPageFails m => some (openFailRecord st t.url t.userid m)
    | .gotoFails m => some (openFailRecord st t.url t.userid m)) ++
  (batch.filterMap fun t =>
    match t.behavior with
    | .ok e => some (evalPage st t e)
    | .newPageFails _ => none
    | .gotoFails _ => none)

/-- Evaluation-phase behaviour for one opened page in
`StatusChecker.process_batch` (`check_status.py` lines 326-345). -/
inductive CheckEvalSpec where
  | raises (msg : String)
  | runs (env : CheckEnv)

/-- Page-opening behaviour for one task in `StatusChecker.process_batch`
(`check_status.py` lines 292-309). -/
inductive CheckOpenSpec where
  | ok (eval : CheckEvalSpec)
  | newPageFails (msg : String)
  | gotoFails (msg : String)

/-- One input row for `StatusChecker.process_batch`. -/
structure CheckTaskSpec where
  url : String
  behavior : CheckOpenSpec

/-- Open-failure record of `check_status.py` (lines 301-307). -/
def csOpenFailRecord (url msg : String) : CSResult :=
  { url := url, url_short := urlShort url, toggle_status := "ERROR",
    message := "Failed to open page: " ++ pyTake msg 100 }

/-- Batch-boundary error record of `check_status.py` (lines 339-345). -/
def csEvalFailRecord (url msg : String) : CSResult :=
  { url := url, url_short := urlShort url, toggle_status := "ERROR",
    message := "Error: " ++ pyTake msg 100 }

/-- `StatusChecker.process_batch` (`check_status.py` lines 278-352),
restricted to the records it appends: same two-phase structure as the
mutating script. -/
def cs_process_batch (batch : List CheckTaskSpec) : List CSResult :=
  (batch.filterMap fun t =>
    match t.behavior with
    | .ok _ => none
    | .newPageFails m => some (csOpenFailRecord t.url m)
    | .gotoFails m => some (csOpenFailRecord t.url m)) ++
  (batch.filterMap fun t =>
    match t.behavior with
    | .ok (.raises m) => some (csEvalFailRecord t.url m)
    | .ok (.runs env) => some (check_toggle_status env t.url).1
    | .newPageFails _ => none
    | .gotoFails _ => none)

/-- The batch slicing performed by `ToggleAutomation.run`
(`toggle_automation.py` lines 460-534): `total_batches = ceil(n / 5)`,
batch `b` is `df.iloc[b*5 : min(b*5+5, n)]` of the FULL loaded list `l`
(`df.iloc[s:e] = (l.drop s).take (e - s)`, and `take` caps at the list
end, so `take BATCH_SIZE` is exact). -/
def toggleRunBatches (l : List α) : List (List α) :=
  (List.range ((l.length + BATCH_SIZE - 1) / BATCH_SIZE)).map
    fun b => (l.drop (b * BATCH_SIZE)).take BATCH_SIZE

/-- The batch slicing performed by `StatusChecker.run`
(`check_status.py` lines 431-436): textually the same computation as in
the mutating script, over the full loaded list. -/
def checkRunBatches (l : List α) : List (List α) :=
  (List.range ((l.length + BATCH_SIZE - 1) / BATCH_SIZE)).map
    fun b => (l.drop (b * BATCH_SIZE)).take BATCH_SIZE

/-- Modelled from the spec: the batching the spec asserts for mutating
mode — "Splits `tasks[1:]` (all but the one used for login) ... into
contiguous batches of `batchSize`" (spec §4.4).  Used only to compare the
spec's description against the source's `toggleRunBatches`. -/
def specMutatingBatches (l : List α) : List (List α) :=
  toggleRunBatches (l.drop 1)

/-- `ToggleAutomation.__init__` (lines 55-64): normalizes the state
argument with `strip().upper()` and raises `ValueError` unless it is `ON`
or `OFF`; `none` models the raise, `some st` the stored `self.state`. -/
def initAutomation (state : String) : Option String :=
  let s := pyUpper (pyStrip state)
  if s = "ON" ∨ s = "OFF" then some s else none

/-- `ToggleAutomation.save_results` (lines 555-566): when `self.results`
is empty the method prints a notice and returns WITHOUT writing any file;
otherwise it writes the result rows.  `none` models "no report file
written". -/
def save_results (results : List TAResult) : Option (List TAResult) :=
  if results.isEmpty then none else some results

/-- Abort/behaviour oracle for one `ToggleAutomation.run` invocation
(lines 452-553). -/
structure RunEnv where
  /-- the loaded, filtered Excel rows together with each task's behaviour. -/
  rows : List TaskSpec
  /-- some browser engine launches (lines 472-495). -/
  browserOk : Bool
  /-- `is_login_page(first_page)` on the first task's page (line 514). -/
  loginNeeded : Bool
  /-- `login(...)` returns `True` (line 515). -/
  loginOk : Bool
  /-- `some k`: an unexpected exception aborts the run after `k` complete
  batches (caught at lines 539-549); `none`: no fatal error. -/
  fatalAfter : Option Nat

/-- What a finished `ToggleAutomation.run` did: how many times the
finalization block ran (`finally`: `save_results` + `print_summary`,
lines 550-553), the accumulated `self.results`, and the report file
`save_results` produced (if any). -/
structure RunResult where
  finalizeCount : Nat
  results : List TAResult
  report : Option (List TAResult)
deriving DecidableEq

/-- `ToggleAutomation.run` (lines 452-553), at batch granularity.
An empty row list returns at line 458, BEFORE the `try`/`finally`, so
finalization never runs.  Otherwise the `finally` block runs exactly once:
after the browser launch fails (return at line 495, `results` untouched),
after a login failure (return at line 519, `results` untouched), after a
fatal error mid-run (partial batches kept), or after all batches. -/
def run (env : RunEnv) (st : String) : RunResult :=
  if env.rows.length = 0 then
    { finalizeCount := 0, results := [], report := none }
  else
    let results :=
      if env.browserOk = false then []
      else if env.loginNeeded = true ∧ env.loginOk = false then []
      else
        match env.fatalAfter with
        | some k => (((toggleRunBatches env.rows).take k).map (process_batch st)).flatten
        | none => ((toggleRunBatches env.rows).map (process_batch st)).flatten
    { finalizeCount := 1, results := results, report := save_results results }

/-- Page open/close events within the shared browsing context; the `Nat`
identifies the page by its task's global index. -/
inductive PEv where
  | openPage (i : Nat)
  | closePage (i : Nat)
deriving DecidableEq, Repr

/-- Page events of one `ToggleAutomation.process_batch` call (lines
366-450).  Phase 1: `context.new_page()` creates a page for every task
except those where `new_page` itself raises; a page whose `goto` raises is
recorded as an error but NEVER closed.  Phase 2 evaluates each tracked
page and closes it in a `finally` (lines 444-448), so tracked pages are
closed unconditionally; `gotoFails` pages receive no `closePage`. -/
def batchOpens (start : Nat) (batch : List TaskSpec) : List PEv :=
  (List.enumFrom start batch).filterMap fun ti =>
    match ti.2.behavior with
    | .ok _ => some (PEv.openPage ti.1)
    | .gotoFails _ => some (PEv.openPage ti.1)
    | .newPageFails _ => none

/-- Phase-2 close events: only tracked (`ok`) pages are closed
(lines 444-448); `gotoFails` pages are leaked. -/
def batchCloses (start : Nat) (batch : List TaskSpec) : List PEv :=
  (List.enumFrom start batch).filterMap fun ti =>
    match ti.2.behavior with
    | .ok _ => some (PEv.closePage ti.1)
    | .gotoFails _ => none
    | .newPageFails _ => none

def batchTrace (start : Nat) (batch : List TaskSpec) : List PEv :=
  batchOpens start batch ++ batchCloses start batch

/-- Concatenate the batch traces sequentially, numbering tasks globally. -/
def runTraceAux (start : Nat) : List (List TaskSpec) → List PEv
  | [] => []
  | c :: rest => batchTrace start c ++ runTraceAux (start + c.length) rest

/-- The page open/close trace of the batch phase of `ToggleAutomation.run`
(lines 529-534): the batches of the full task list, processed strictly
sequentially. -/
def runTrace (specs : List TaskSpec) : List PEv :=
  runTraceAux 0 (toggleRunBatches specs)

/-- Net effect of a page event on the number of open pages. -/
def evDelta : PEv → Int
  | .openPage _ => 1
  | .closePage _ => -1

/-- Maximum, over all prefixes of the trace, of the running open-page
count started at `b` (the empty prefix included). -/
def runningMax (b : Int) : List PEv → Int
  | [] => b
  | e :: es => max b (runningMax (b + evDelta e) es)

/-- Sum of the deltas of a trace. -/
def traceSum (l : List PEv) : Int := (l.map evDelta).sum

/-- Number of records with a given status. -/
def countStatus (s : String) (results : List TAResult) : Nat :=
  results.countP fun r => r.status == s

/-- `pat` occurs as a prefix of `s` (character lists). -/
def charsStart : List Char → List Char → Bool
  | _, [] => true
  | [], _ :: _ => false
  | a :: as, b :: bs => a = b && charsStart as bs

/-- `pat` occurs as a contiguous run somewhere in `s` (character lists). -/
def charsContain (s pat : List Char) : Bool :=
  match s with
  | [] => charsStart [] pat
  | _ :: rest => charsStart s pat || charsContain rest pat

/-- Substring test on strings, used to state "message contains ...". -/
def strContainsSub (s pat : String) : Bool := charsContain s.toList pat.toList

theorem waitRetry_events (w0 rl w1 : Except String Unit) :
    ∀ e ∈ (waitRetry w0 rl w1).2, e = Ev.reload := by
  unfold waitRetry
  cases w0 <;> cases rl <;> cases w1 <;> simp


theorem togglePath_url (env : ToggleEnv) (r0 : TAResult) (dUp : String) (dc : Bool) :
    (togglePath env r0 dUp dc).1.url = r0.url := by
  unfold togglePath
  repeat' split <;> try rfl

theorem togglePath_status (env : ToggleEnv) (r0 : TAResult) (dUp : String) (dc : Bool)
    (h : r0.status = "failed") :
    (togglePath env r0 dUp dc).1.status = "success" ∨
    (togglePath env r0 dUp dc).1.status = "failed" ∨
    (togglePath env r0 dUp dc).1.status = "error" := by
  unfold togglePath
  repeat' split
  all_goals simp [h]

theorem set_toggle_state_url (env : ToggleEnv) (url ds : String) :
    (set_toggle_state env url ds).1.url = url := by
  by_cases h : pyLower (pyStrip ds) = "on" ∨ pyLower (pyStrip ds) = "off" <;>
    simp [set_toggle_state, h, togglePath_url]

theorem set_toggle_state_status_ne_skipped (env : ToggleEnv) (url ds : String)
    (h : pyLower (pyStrip ds) = "on" ∨ pyLower (pyStrip ds) = "off") :
    (set_toggle_state env url ds).1.status ≠ "skipped" := by
  have hs := togglePath_status env
      { url := url, userid := "", status := "failed", desired_state := pyUpper ds,
        toggle_state_before := "UNKNOWN", toggle_state_after := "UNKNOWN", message := "" }
      (pyUpper (pyLower (pyStrip ds))) (decide (pyLower (pyStrip ds) = "on")) rfl
  simp only [set_toggle_state]
  rw [if_pos h]
  rcases hs with h1 | h1 | h1 <;> simp [h1]

theorem evalPage_url (st : String) (t : TaskSpec) (e : EvalSpec) :
    (evalPage st t e).url = t.url := by
  cases e with
  | raises m => rfl
  | runs env => simp [evalPage, set_toggle_state_url]

theorem process_batch_length (st : String) (batch : List TaskSpec) :
    (process_batch st batch).length = batch.length := by
  induction batch with
  | nil => rfl
  | cons t ts ih =>
    simp only [process_batch, List.length_append] at ih ⊢
    cases hb : t.behavior <;> simp [List.filterMap_cons, hb] <;> omega

theorem process_batch_urls_perm (st : String) (batch : List TaskSpec) :
    ((process_batch st batch).map (fun r => r.url)).Perm (batch.map (fun t => t.url)) := by
  induction batch with
  | nil => simp [process_batch]
  | cons t ts ih =>
    cases hb : t.behavior with
    | ok e =>
      simp only [process_batch, List.filterMap_cons, hb, List.map_append, List.map_cons,
        evalPage_url]
      refine List.perm_middle.trans (List.Perm.cons _ ?_)
      simpa [process_batch, List.map_append] using ih
    | newPageFails m =>
      simp only [process_batch, List.filterMap_cons, hb, List.map_append, List.map_cons,
        List.cons_append, openFailRecord]
      refine List.Perm.cons _ ?_
      simpa [process_batch, List.map_append] using ih
    | gotoFails m =>
      simp only [process_batch, List.filterMap_cons, hb, List.map_append, List.map_cons,
        List.cons_append, openFailRecord]
      refine List.Perm.cons _ ?_
      simpa [process_batch, List.map_append] using ih

theorem check_toggle_status_url (env : CheckEnv) (url : String) :
    (check_toggle_status env url).1.url = url := by
  unfold check_toggle_status
  repeat' split
  all_goals rfl

theorem cs_process_batch_length (batch : List CheckTaskSpec) :
    (cs_process_batch batch).length = batch.length := by
  induction batch with
  | nil => rfl
  | cons t ts ih =>
    simp only [cs_process_batch, List.length_append] at ih ⊢
    cases hb : t.behavior with
    | ok e => cases e <;> simp [List.filterMap_cons, hb] <;> omega
    | newPageFails m => simp [List.filterMap_cons, hb]; omega
    | gotoFails m => simp [List.filterMap_cons, hb]; omega

theorem cs_process_batch_urls_perm (batch : List CheckTaskSpec) :
    ((cs_process_batch batch).map (fun r => r.url)).Perm (batch.map (fun t => t.url)) := by
  induction batch with
  | nil => simp [cs_process_batch]
  | cons t ts ih =>
    cases hb : t.behavior with
    | ok e =>
      cases e with
      | raises m =>
        simp only [cs_process_batch, List.filterMap_cons, hb, List.map_append, List.map_cons,
          csEvalFailRecord]
        refine List.perm_middle.trans (List.Perm.cons _ ?_)
        simpa [cs_process_batch, List.map_append] using ih
      | runs env =>
        simp only [cs_process_batch, List.filterMap_cons, hb, List.map_append, List.map_cons,
          check_toggle_status_url]
        refine List.perm_middle.trans (List.Perm.cons _ ?_)
        simpa [cs_process_batch, List.map_append] using ih
    | newPageFails m =>
      simp only [cs_process_batch, List.filterMap_cons, hb, List.map_append, List.map_cons,
        List.cons_append, csOpenFailRecord]
      refine List.Perm.cons _ ?_
      simpa [cs_process_batch, List.map_append] using ih
    | gotoFails m =>
      simp only [cs_process_batch, List.filterMap_cons, hb, List.map_append, List.map_cons,
        List.cons_append, csOpenFailRecord]
      refine List.Perm.cons _ ?_
      simpa [cs_process_batch, List.map_append] using ih

theorem toggleRunBatches_nil : toggleRunBatches ([] : List α) = [] := by
  simp [toggleRunBatches, BATCH_SIZE]

theorem toggleRunBatches_cons (l : List α) (h : l ≠ []) :
    toggleRunBatches l = l.take BATCH_SIZE :: toggleRunBatches (l.drop BATCH_SIZE) := by
  have hn : 0 < l.length := List.length_pos.mpr h
  unfold toggleRunBatches
  rw [List.length_drop]
  have hcount : (l.length + BATCH_SIZE - 1) / BATCH_SIZE
      = (l.length - BATCH_SIZE + BATCH_SIZE - 1) / BATCH_SIZE + 1 := by
    simp only [BATCH_SIZE]
    omega
  rw [hcount, List.range_succ_eq_map, List.map_cons, List.map_map]
  congr 1
  have hfun : ((fun b => List.take BATCH_SIZE (List.drop (b * BATCH_SIZE) l)) ∘ Nat.succ)
      = fun b => List.take BATCH_SIZE (List.drop (b * BATCH_SIZE) (List.drop BATCH_SIZE l)) := by
    funext b
    simp only [Function.comp_apply, List.drop_drop, Nat.succ_mul]
    rw [Nat.add_comm]
  rw [hfun]

theorem toggleRunBatches_flatten (l : List α) : (toggleRunBatches l).flatten = l := by
  by_cases h : l = []
  · subst h; rw [toggleRunBatches_nil]; rfl
  · rw [toggleRunBatches_cons l h]
    simp only [List.flatten_cons]
    rw [toggleRunBatches_flatten (l.drop BATCH_SIZE)]
    exact List.take_append_drop _ l
termination_by l.length
decreasing_by
  have : 0 < l.length := List.length_pos.mpr h
  simp only [List.length_drop, BATCH_SIZE]
  omega

theorem toggleRunBatches_len_le (l : List α) :
    ∀ c ∈ toggleRunBatches l, c.length ≤ BATCH_SIZE := by
  intro c hc
  simp only [toggleRunBatches, List.mem_map] at hc
  obtain ⟨b, _, rfl⟩ := hc
  simp

theorem checkRunBatches_eq_toggle (l : List α) : checkRunBatches l = toggleRunBatches l := rfl

theorem flatten_process_length (st : String) (bs : List (List TaskSpec)) :
    ((bs.map (process_batch st)).flatten).length = bs.flatten.length := by
  induction bs with
  | nil => rfl
  | cons c cs ih => simp [process_batch_length, ih]
/-- A task whose page was created but whose navigation raised: the source
leaks this page (it is never closed). -/
def isGotoFail (t : TaskSpec) : Bool :=
  match t.behavior with
  | .gotoFails _ => true
  | _ => false

/-- Some task in the run has a leaked (created, never closed) page. -/
def hasGotoFail (specs : List TaskSpec) : Bool := specs.any isGotoFail

theorem le_runningMax (b : Int) (l : List PEv) : b ≤ runningMax b l := by
  cases l with
  | nil => exact le_refl b
  | cons e es => exact le_max_left _ _

theorem traceSum_append (xs ys : List PEv) :
    traceSum (xs ++ ys) = traceSum xs + traceSum ys := by
  simp [traceSum]

theorem runningMax_append (b : Int) (xs ys : List PEv) :
    runningMax b (xs ++ ys) = max (runningMax b xs) (runningMax (b + traceSum xs) ys) := by
  induction xs generalizing b with
  | nil =>
    simp only [List.nil_append, runningMax, traceSum, List.map_nil, List.sum_nil, add_zero]
    exact (max_eq_right (le_runningMax b ys)).symm
  | cons x xs ih =>
    simp only [List.cons_append, runningMax, traceSum, List.map_cons, List.sum_cons,
      List.append_eq]
    rw [ih, max_assoc, add_assoc]
    simp [traceSum]

theorem runningMax_opens (b : Int) (l : List PEv) (h : ∀ e ∈ l, evDelta e = 1) :
    runningMax b l = b + l.length := by
  induction l generalizing b with
  | nil => simp [runningMax]
  | cons e es ih =>
    have he : evDelta e = 1 := h e (List.mem_cons_self _ _)
    rw [runningMax, he, ih _ (fun x hx => h x (List.mem_cons_of_mem _ hx))]
    rw [max_eq_right (by omega)]
    simp only [List.length_cons]
    push_cast
    ring

theorem runningMax_closes (b : Int) (l : List PEv) (h : ∀ e ∈ l, evDelta e = -1) :
    runningMax b l = b := by
  induction l generalizing b with
  | nil => rfl
  | cons e es ih =>
    have he : evDelta e = -1 := h e (List.mem_cons_self _ _)
    rw [runningMax, he, ih _ (fun x hx => h x (List.mem_cons_of_mem _ hx))]
    exact max_eq_left (by omega)

theorem traceSum_opens (l : List PEv) (h : ∀ e ∈ l, evDelta e = 1) :
    traceSum l = l.length := by
  induction l with
  | nil => rfl
  | cons e es ih =>
    have he : evDelta e = 1 := h e (List.mem_cons_self _ _)
    simp only [traceSum, List.map_cons, List.sum_cons, he] at *
    rw [ih (fun x hx => h x (List.mem_cons_of_mem _ hx))]
    simp only [List.length_cons]
    push_cast
    omega

theorem traceSum_closes (l : List PEv) (h : ∀ e ∈ l, evDelta e = -1) :
    traceSum l = -l.length := by
  induction l with
  | nil => rfl
  | cons e es ih =>
    have he : evDelta e = -1 := h e (List.mem_cons_self _ _)
    simp only [traceSum, List.map_cons, List.sum_cons, he] at *
    rw [ih (fun x hx => h x (List.mem_cons_of_mem _ hx))]
    simp only [List.length_cons]
    push_cast
    omega

theorem batchOpens_all_one (s : Nat) (c : List TaskSpec) :
    ∀ e ∈ batchOpens s c, evDelta e = 1 := by
  intro e he
  simp only [batchOpens, List.mem_filterMap] at he
  obtain ⟨a, _, ha⟩ := he
  split at ha
  all_goals first | (cases ha; rfl) | simp at ha

theorem batchCloses_all_negone (s : Nat) (c : List TaskSpec) :
    ∀ e ∈ batchCloses s c, evDelta e = -1 := by
  intro e he
  simp only [batchCloses, List.mem_filterMap] at he
  obtain ⟨a, _, ha⟩ := he
  split at ha
  all_goals first | (cases ha; rfl) | simp at ha

theorem batchOpens_length_le (s : Nat) (c : List TaskSpec) :
    (batchOpens s c).length ≤ c.length := by
  calc (batchOpens s c).length ≤ (List.enumFrom s c).length := List.length_filterMap_le _ _
  _ = c.length := by simp

theorem batch_open_close_len (c : List TaskSpec) (h : ∀ t ∈ c, isGotoFail t = false) :
    ∀ s, (batchOpens s c).length = (batchCloses s c).length := by
  induction c with
  | nil => intro s; rfl
  | cons t ts ih =>
    intro s
    have ht : isGotoFail t = false := h t (List.mem_cons_self _ _)
    have hts : ∀ x ∈ ts, isGotoFail x = false := fun x hx => h x (List.mem_cons_of_mem _ hx)
    cases hb : t.behavior with
    | ok e =>
      simp only [batchOpens, batchCloses, List.enumFrom_cons, List.filterMap_cons, hb,
        List.length_cons]
      simpa [batchOpens, batchCloses] using ih hts (s + 1)
    | newPageFails m =>
      simp only [batchOpens, batchCloses, List.enumFrom_cons, List.filterMap_cons, hb]
      simpa [batchOpens, batchCloses] using ih hts (s + 1)
    | gotoFails m =>
      rw [isGotoFail, hb] at ht
      simp at ht
theorem runningMax_batchTrace (b : Int) (s : Nat) (c : List TaskSpec)
    (h : ∀ t ∈ c, isGotoFail t = false) :
    runningMax b (batchTrace s c) ≤ b + c.length ∧ traceSum (batchTrace s c) = 0 := by
  have hop := batchOpens_all_one s c
  have hcl := batchCloses_all_negone s c
  have hle := batchOpens_length_le s c
  have heq := batch_open_close_len c h s
  constructor
  · rw [batchTrace, runningMax_append, runningMax_opens _ _ hop, traceSum_opens _ hop,
      runningMax_closes _ _ hcl, max_self]
    omega
  · rw [batchTrace, traceSum_append, traceSum_opens _ hop, traceSum_closes _ hcl, heq]
    omega

theorem runTraceAux_max (bs : List (List TaskSpec))
    (hlen : ∀ c ∈ bs, c.length ≤ BATCH_SIZE)
    (hng : ∀ c ∈ bs, ∀ t ∈ c, isGotoFail t = false) :
    ∀ s, runningMax 0 (runTraceAux s bs) ≤ (BATCH_SIZE : Int) := by
  induction bs with
  | nil =>
    intro s
    simp [runTraceAux, runningMax, BATCH_SIZE]
  | cons c cs ih =>
    intro s
    obtain ⟨hm, hs0⟩ := runningMax_batchTrace 0 s c (hng c (List.mem_cons_self _ _))
    rw [runTraceAux, runningMax_append, hs0, add_zero]
    refine max_le (le_trans hm ?_) ?_
    · have := hlen c (List.mem_cons_self _ _)
      omega
    · exact ih (fun x hx => hlen x (List.mem_cons_of_mem _ hx))
        (fun x hx => hng x (List.mem_cons_of_mem _ hx)) (s + c.length)
theorem process_batch_skip_zero (st : String)
    (h : pyLower (pyStrip st) = "on" ∨ pyLower (pyStrip st) = "off") (batch : List TaskSpec) :
    countStatus "skipped" (process_batch st batch) = 0 := by
  rw [countStatus, List.countP_eq_zero]
  intro r hr
  simp only [process_batch, List.mem_append, List.mem_filterMap] at hr
  rcases hr with ⟨t, _, hmatch⟩ | ⟨t, _, hmatch⟩
  · cases hb : t.behavior with
    | ok e =>
      simp only [hb] at hmatch
      exact Option.noConfusion hmatch
    | newPageFails m =>
      simp only [hb, Option.some.injEq] at hmatch
      subst hmatch
      simp only [openFailRecord]
      decide
    | gotoFails m =>
      simp only [hb, Option.some.injEq] at hmatch
      subst hmatch
      simp only [openFailRecord]
      decide
  · cases hb : t.behavior with
    | ok e =>
      simp only [hb, Option.some.injEq] at hmatch
      subst hmatch
      cases e with
      | raises m =>
        simp only [evalPage, evalFailRecord]
        decide
      | runs env =>
        have hne := set_toggle_state_status_ne_skipped env t.url st h
        simp [evalPage, hne]
    | newPageFails m =>
      simp only [hb] at hmatch
      exact Option.noConfusion hmatch
    | gotoFails m =>
      simp only [hb] at hmatch
      exact Option.noConfusion hmatch

theorem run_skip_zero (renv : RunEnv) (st : String)
    (h : pyLower (pyStrip st) = "on" ∨ pyLower (pyStrip st) = "off") :
    countStatus "skipped" (run renv st).results = 0 := by
  rw [countStatus, List.countP_eq_zero]
  intro r hr
  have hform : ∀ (bs : List (List TaskSpec)), r ∈ (bs.map (process_batch st)).flatten →
      ¬(r.status == "skipped") = true := by
    intro bs hmem
    rw [List.mem_flatten] at hmem
    obtain ⟨res, hres, hrmem⟩ := hmem
    rw [List.mem_map] at hres
    obtain ⟨c, _, rfl⟩ := hres
    have hz := process_batch_skip_zero st h c
    rw [countStatus, List.countP_eq_zero] at hz
    exact hz r hrmem
  unfold run at hr
  split at hr
  · simp at hr
  · simp only at hr
    split at hr
    · simp at hr
    · split at hr
      · simp at hr
      · split at hr
        · exact hform _ hr
        · exact hform _ hr
/-- C2: if the observed before-state equals the desired state,
`set_toggle_state` returns SUCCESS with the "Already in desired state"
message, `afterState = beforeState`, and no toggle or save click is ever
attempted (`toggle_automation.py` lines 293-299). -/
theorem claim_C2 (env : ToggleEnv) (url ds : String) (b : Bool) (n : Nat) (evs : List Ev)
    (hfound : waitRetry env.waitSel0 env.reloadCall env.waitSel1 = (.ok true, evs))
    (hcount : env.countToggle = .ok (n + 1))
    (hbefore : env.isCheckedBefore = .ok b)
    (hdes : (b = true ∧ pyLower (pyStrip ds) = "on") ∨
      (b = false ∧ pyLower (pyStrip ds) = "off")) :
    (set_toggle_state env url ds).1.status = "success" ∧
    (set_toggle_state env url ds).1.message =
      "Already in desired state: " ++ pyUpper (pyLower (pyStrip ds)) ∧
    (set_toggle_state env url ds).1.toggle_state_after =
      (set_toggle_state env url ds).1.toggle_state_before ∧
    Ev.toggleClick ∉ (set_toggle_state env url ds).2 ∧
    Ev.saveClick ∉ (set_toggle_state env url ds).2 := by
  have hrel := waitRetry_events env.waitSel0 env.reloadCall env.waitSel1
  rw [hfound] at hrel
  rcases hdes with ⟨hb, hd⟩ | ⟨hb, hd⟩ <;> subst hb <;>
    refine ⟨?_, ?_, ?_, ?_, ?_⟩ <;>
      simp [set_toggle_state, togglePath, hd, hfound, hcount, hbefore] <;>
      (intro hmem; have he := hrel _ hmem; simp at he)

theorem claim_C2_witness :
    (set_toggle_state
      { waitSel0 := .ok (), reloadCall := .ok (), waitSel1 := .ok (),
        countToggle := .ok 1, isCheckedBefore := .ok true,
        clickToggle := .ok (), forceClickToggle := .ok (), saveSels := [],
        waitAfterSave := .ok (), isCheckedAfter := .ok true }
      "https://example.com/settings" "ON").1.status = "success" ∧
    (set_toggle_state
      { waitSel0 := .ok (), reloadCall := .ok (), waitSel1 := .ok (),
        countToggle := .ok 1, isCheckedBefore := .ok true,
        clickToggle := .ok (), forceClickToggle := .ok (), saveSels := [],
        waitAfterSave := .ok (), isCheckedAfter := .ok true }
      "https://example.com/settings" "ON").1.message =
      "Already in desired state: " ++ pyUpper (pyLower (pyStrip "ON")) ∧
    (set_toggle_state
      { waitSel0 := .ok (), reloadCall := .ok (), waitSel1 := .ok (),
        countToggle := .ok 1, isCheckedBefore := .ok true,
        clickToggle := .ok (), forceClickToggle := .ok (), saveSels := [],
        waitAfterSave := .ok (), isCheckedAfter := .ok true }
      "https://example.com/settings" "ON").1.toggle_state_after =
    (set_toggle_state
      { waitSel0 := .ok (), reloadCall := .ok (), waitSel1 := .ok (),
        countToggle := .ok 1, isCheckedBefore := .ok true,
        clickToggle := .ok (), forceClickToggle := .ok (), saveSels := [],
        waitAfterSave := .ok (), isCheckedAfter := .ok true }
      "https://example.com/settings" "ON").1.toggle_state_before ∧
    Ev.toggleClick ∉ (set_toggle_state
      { waitSel0 := .ok (), reloadCall := .ok (), waitSel1 := .ok (),
        countToggle := .ok 1, isCheckedBefore := .ok true,
        clickToggle := .ok (), forceClickToggle := .ok (), saveSels := [],
        waitAfterSave := .ok (), isCheckedAfter := .ok true }
      "https://example.com/settings" "ON").2 ∧
    Ev.saveClick ∉ (set_toggle_state
      { waitSel0 := .ok (), reloadCall := .ok (), waitSel1 := .ok (),
        countToggle := .ok 1, isCheckedBefore := .ok true,
        clickToggle := .ok (), forceClickToggle := .ok (), saveSels := [],
        waitAfterSave := .ok (), isCheckedAfter := .ok true }
      "https://example.com/settings" "ON").2 :=
  claim_C2 _ "https://example.com/settings" "ON" true 0 [] rfl rfl rfl
    (Or.inl ⟨rfl, by decide⟩)

/-- C3: in a mutating run where the toggle was found and clicked and the
save control was clicked, the outcome is SUCCESS iff the re-read
after-state equals the desired state, and the result reports both the
before- and after-state (`toggle_automation.py` lines 346-357). -/
theorem claim_C3 (env : ToggleEnv) (url ds : String) (b a : Bool) (n : Nat)
    (evs sevs : List Ev)
    (hfound : waitRetry env.waitSel0 env.reloadCall env.waitSel1 = (.ok true, evs))
    (hcount : env.countToggle = .ok (n + 1))
    (hbefore : env.isCheckedBefore = .ok b)
    (hdiff : (b = true ∧ pyLower (pyStrip ds) = "off") ∨
      (b = false ∧ pyLower (pyStrip ds) = "on"))
    (hclick : (match env.clickToggle with
               | .ok _ => Except.ok ()
               | .error _ => env.forceClickToggle) = Except.ok ())
    (hsave : saveLoop env.saveSels = (true, sevs))
    (hwait : env.waitAfterSave = .ok ())
    (hafter : env.isCheckedAfter = .ok a) :
    ((set_toggle_state env url ds).1.status = "success" ↔
      ((a = true ∧ pyLower (pyStrip ds) = "on") ∨
        (a = false ∧ pyLower (pyStrip ds) = "off"))) ∧
    ((set_toggle_state env url ds).1.status = "success" ∨
      (set_toggle_state env url ds).1.status = "failed") ∧
    (set_toggle_state env url ds).1.toggle_state_before = (if b then "ON" else "OFF") ∧
    (set_toggle_state env url ds).1.toggle_state_after = (if a then "ON" else "OFF") := by
  rcases hdiff with ⟨hb, hd⟩ | ⟨hb, hd⟩ <;> subst hb <;> cases a <;>
    simp [set_toggle_state, togglePath, hd, hfound, hcount, hbefore, hclick, hsave,
      hwait, hafter]

theorem claim_C3_witness :
    ((set_toggle_state
      { waitSel0 := .ok (), reloadCall := .ok (), waitSel1 := .ok (),
        countToggle := .ok 1, isCheckedBefore := .ok true,
        clickToggle := .ok (), forceClickToggle := .ok (),
        saveSels := [{ cnt := .ok 1, clickA := .ok (), clickB := .ok () }],
        waitAfterSave := .ok (), isCheckedAfter := .ok false }
      "https://example.com/settings" "OFF").1.status = "success" ↔
      ((false = true ∧ pyLower (pyStrip "OFF") = "on") ∨
        (false = false ∧ pyLower (pyStrip "OFF") = "off"))) ∧
    ((set_toggle_state
      { waitSel0 := .ok (), reloadCall := .ok (), waitSel1 := .ok (),
        countToggle := .ok 1, isCheckedBefore := .ok true,
        clickToggle := .ok (), forceClickToggle := .ok (),
        saveSels := [{ cnt := .ok 1, clickA := .ok (), clickB := .ok () }],
        waitAfterSave := .ok (), isCheckedAfter := .ok false }
      "https://example.com/settings" "OFF").1.status = "success" ∨
    (set_toggle_state
      { waitSel0 := .ok (), reloadCall := .ok (), waitSel1 := .ok (),
        countToggle := .ok 1, isCheckedBefore := .ok true,
        clickToggle := .ok (), forceClickToggle := .ok (),
        saveSels := [{ cnt := .ok 1, clickA := .ok (), clickB := .ok () }],
        waitAfterSave := .ok (), isCheckedAfter := .ok false }
      "https://example.com/settings" "OFF").1.status = "failed") ∧
    (set_toggle_state
      { waitSel0 := .ok (), reloadCall := .ok (), waitSel1 := .ok (),
        countToggle := .ok 1, isCheckedBefore := .ok true,
        clickToggle := .ok (), forceClickToggle := .ok (),
        saveSels := [{ cnt := .ok 1, clickA := .ok (), clickB := .ok () }],
        waitAfterSave := .ok (), isCheckedAfter := .ok false }
      "https://example.com/settings" "OFF").1.toggle_state_before =
        (if true then "ON" else "OFF") ∧
    (set_toggle_state
      { waitSel0 := .ok (), reloadCall := .ok (), waitSel1 := .ok (),
        countToggle := .ok 1, isCheckedBefore := .ok true,
        clickToggle := .ok (), forceClickToggle := .ok (),
        saveSels := [{ cnt := .ok 1, clickA := .ok (), clickB := .ok () }],
        waitAfterSave := .ok (), isCheckedAfter := .ok false }
      "https://example.com/settings" "OFF").1.toggle_state_after =
        (if false then "ON" else "OFF") :=
  claim_C3 _ "https://example.com/settings" "OFF" true false 0 [] [Ev.saveClick]
    rfl rfl rfl (Or.inl ⟨rfl, by decide⟩) rfl rfl rfl rfl

/-- C5 (amended): when the toggle was clicked but no save-control selector
matches, the outcome is FAILED with the message `Save button not found`
(the source never emits the spec's literal "save control not found"),
`afterState` stays UNKNOWN, and the trace ends with the single save-loop
pass — no retry (`toggle_automation.py` lines 319-340). -/
theorem claim_C5 (env : ToggleEnv) (url ds : String) (b : Bool) (n : Nat)
    (evs sevs : List Ev)
    (hfound : waitRetry env.waitSel0 env.reloadCall env.waitSel1 = (.ok true, evs))
    (hcount : env.countToggle = .ok (n + 1))
    (hbefore : env.isCheckedBefore = .ok b)
    (hdiff : (b = true ∧ pyLower (pyStrip ds) = "off") ∨
      (b = false ∧ pyLower (pyStrip ds) = "on"))
    (hclick : (match env.clickToggle with
               | .ok _ => Except.ok ()
               | .error _ => env.forceClickToggle) = Except.ok ())
    (hsave : saveLoop env.saveSels = (false, sevs)) :
    (set_toggle_state env url ds).1.status = "failed" ∧
    (set_toggle_state env url ds).1.message = "Save button not found" ∧
    (set_toggle_state env url ds).1.toggle_state_after = "UNKNOWN" ∧
    (set_toggle_state env url ds).2 = evs ++ [Ev.toggleClick] ++ sevs := by
  rcases hdiff with ⟨hb, hd⟩ | ⟨hb, hd⟩ <;> subst hb <;>
    simp [set_toggle_state, togglePath, hd, hfound, hcount, hbefore, hclick, hsave]

/-- C5 counterexample: the source's message is `Save button not found`; it
does not contain the spec's quoted string "save control not found". -/
theorem claim_C5_cx :
    (set_toggle_state
      { waitSel0 := .ok (), reloadCall := .ok (), waitSel1 := .ok (),
        countToggle := .ok 1, isCheckedBefore := .ok true,
        clickToggle := .ok (), forceClickToggle := .ok (),
        saveSels := [{ cnt := .ok 0, clickA := .ok (), clickB := .ok () },
                     { cnt := .ok 0, clickA := .ok (), clickB := .ok () }],
        waitAfterSave := .ok (), isCheckedAfter := .ok false }
      "https://example.com/settings" "OFF").1.status = "failed" ∧
    (set_toggle_state
      { waitSel0 := .ok (), reloadCall := .ok (), waitSel1 := .ok (),
        countToggle := .ok 1, isCheckedBefore := .ok true,
        clickToggle := .ok (), forceClickToggle := .ok (),
        saveSels := [{ cnt := .ok 0, clickA := .ok (), clickB := .ok () },
                     { cnt := .ok 0, clickA := .ok (), clickB := .ok () }],
        waitAfterSave := .ok (), isCheckedAfter := .ok false }
      "https://example.com/settings" "OFF").1.message = "Save button not found" ∧
    strContainsSub
      (set_toggle_state
        { waitSel0 := .ok (), reloadCall := .ok (), waitSel1 := .ok (),
          countToggle := .ok 1, isCheckedBefore := .ok true,
          clickToggle := .ok (), forceClickToggle := .ok (),
          saveSels := [{ cnt := .ok 0, clickA := .ok (), clickB := .ok () },
                       { cnt := .ok 0, clickA := .ok (), clickB := .ok () }],
          waitAfterSave := .ok (), isCheckedAfter := .ok false }
        "https://example.com/settings" "OFF").1.message
      "save control not found" = false := by
  decide

theorem claim_C5_witness :
    (set_toggle_state
      { waitSel0 := .ok (), reloadCall := .ok (), waitSel1 := .ok (),
        countToggle := .ok 1, isCheckedBefore := .ok false,
        clickToggle := .ok (), forceClickToggle := .ok (),
        saveSels := [{ cnt := .error "detached", clickA := .ok (), clickB := .ok () },
                     { cnt := .ok 0, clickA := .ok (), clickB := .ok () }],
        waitAfterSave := .ok (), isCheckedAfter := .ok false }
      "https://example.com/settings" "ON").1.status = "failed" ∧
    (set_toggle_state
      { waitSel0 := .ok (), reloadCall := .ok (), waitSel1 := .ok (),
        countToggle := .ok 1, isCheckedBefore := .ok false,
        clickToggle := .ok (), forceClickToggle := .ok (),
        saveSels := [{ cnt := .error "detached", clickA := .ok (), clickB := .ok () },
                     { cnt := .ok 0, clickA := .ok (), clickB := .ok () }],
        waitAfterSave := .ok (), isCheckedAfter := .ok false }
      "https://example.com/settings" "ON").1.message = "Save button not found" ∧
    (set_toggle_state
      { waitSel0 := .ok (), reloadCall := .ok (), waitSel1 := .ok (),
        countToggle := .ok 1, isCheckedBefore := .ok false,
        clickToggle := .ok (), forceClickToggle := .ok (),
        saveSels := [{ cnt := .error "detached", clickA := .ok (), clickB := .ok () },
                     { cnt := .ok 0, clickA := .ok (), clickB := .ok () }],
        waitAfterSave := .ok (), isCheckedAfter := .ok false }
      "https://example.com/settings" "ON").1.toggle_state_after = "UNKNOWN" ∧
    (set_toggle_state
      { waitSel0 := .ok (), reloadCall := .ok (), waitSel1 := .ok (),
        countToggle := .ok 1, isCheckedBefore := .ok false,
        clickToggle := .ok (), forceClickToggle := .ok (),
        saveSels := [{ cnt := .error "detached", clickA := .ok (), clickB := .ok () },
                     { cnt := .ok 0, clickA := .ok (), clickB := .ok () }],
        waitAfterSave := .ok (), isCheckedAfter := .ok false }
      "https://example.com/settings" "ON").2 = [] ++ [Ev.toggleClick] ++ [] :=
  claim_C5 _ "https://example.com/settings" "ON" false 0 [] []
    rfl rfl rfl (Or.inr ⟨rfl, by decide⟩) rfl rfl

/-- C4 (amended): when the toggle is not found on the first wait, exactly
one reload-and-retry cycle runs before giving up and no toggle or save
click is ever attempted; the inspect script then reports `NOT_FOUND`, but
the mutating script's record keeps status `failed` (FAILED) with the
not-found message — it has no NOT_FOUND status at all
(`toggle_automation.py` lines 262-287, `check_status.py` lines 240-259). -/
theorem claim_C4 :
    (∀ (env : ToggleEnv) (url ds w1 w2 : String),
      (pyLower (pyStrip ds) = "on" ∨ pyLower (pyStrip ds) = "off") →
      env.waitSel0 = .error w1 → env.reloadCall = .ok () → env.waitSel1 = .error w2 →
      (set_toggle_state env url ds).1.status = "failed" ∧
      (set_toggle_state env url ds).1.message =
        "Toggle element not found (timeout waiting for element after retry)" ∧
      (set_toggle_state env url ds).2 = [Ev.reload]) ∧
    (∀ (cenv : CheckEnv) (url w1 w2 : String),
      cenv.waitSel0 = .error w1 → cenv.reloadCall = .ok () → cenv.waitSel1 = .error w2 →
      (check_toggle_status cenv url).1.toggle_status = "NOT_FOUND" ∧
      (check_toggle_status cenv url).1.message =
        "Toggle element not found (timeout waiting for element after retry)" ∧
      (check_toggle_status cenv url).2 = [Ev.reload]) := by
  constructor
  · intro env url ds w1 w2 hval h0 hr h1
    rcases hval with hd | hd <;>
      simp [set_toggle_state, togglePath, waitRetry, hd, h0, hr, h1]
  · intro cenv url w1 w2 h0 hr h1
    simp [check_toggle_status, waitRetry, h0, hr, h1]

/-- C4 counterexample: in the mutating script the not-found outcome is the
status string `failed` — not `NOT_FOUND` and not `error` as the claim
states. -/
theorem claim_C4_cx :
    (set_toggle_state
      { waitSel0 := .error "timeout 20000ms", reloadCall := .ok (),
        waitSel1 := .error "timeout 20000ms", countToggle := .ok 1,
        isCheckedBefore := .ok true, clickToggle := .ok (),
        forceClickToggle := .ok (), saveSels := [], waitAfterSave := .ok (),
        isCheckedAfter := .ok true }
      "https://example.com/settings" "ON").1.status = "failed" ∧
    (set_toggle_state
      { waitSel0 := .error "timeout 20000ms", reloadCall := .ok (),
        waitSel1 := .error "timeout 20000ms", countToggle := .ok 1,
        isCheckedBefore := .ok true, clickToggle := .ok (),
        forceClickToggle := .ok (), saveSels := [], waitAfterSave := .ok (),
        isCheckedAfter := .ok true }
      "https://example.com/settings" "ON").1.status ≠ "NOT_FOUND" ∧
    (set_toggle_state
      { waitSel0 := .error "timeout 20000ms", reloadCall := .ok (),
        waitSel1 := .error "timeout 20000ms", countToggle := .ok 1,
        isCheckedBefore := .ok true, clickToggle := .ok (),
        forceClickToggle := .ok (), saveSels := [], waitAfterSave := .ok (),
        isCheckedAfter := .ok true }
      "https://example.com/settings" "ON").1.status ≠ "error" := by
  decide

theorem claim_C4_witness :
    ((set_toggle_state
      { waitSel0 := .error "t1", reloadCall := .ok (), waitSel1 := .error "t2",
        countToggle := .ok 1, isCheckedBefore := .ok true, clickToggle := .ok (),
        forceClickToggle := .ok (), saveSels := [], waitAfterSave := .ok (),
        isCheckedAfter := .ok true }
      "https://example.com/settings" "ON").1.status = "failed" ∧
    (set_toggle_state
      { waitSel0 := .error "t1", reloadCall := .ok (), waitSel1 := .error "t2",
        countToggle := .ok 1, isCheckedBefore := .ok true, clickToggle := .ok (),
        forceClickToggle := .ok (), saveSels := [], waitAfterSave := .ok (),
        isCheckedAfter := .ok true }
      "https://example.com/settings" "ON").1.message =
      "Toggle element not found (timeout waiting for element after retry)" ∧
    (set_toggle_state
      { waitSel0 := .error "t1", reloadCall := .ok (), waitSel1 := .error "t2",
        countToggle := .ok 1, isCheckedBefore := .ok true, clickToggle := .ok (),
        forceClickToggle := .ok (), saveSels := [], waitAfterSave := .ok (),
        isCheckedAfter := .ok true }
      "https://example.com/settings" "ON").2 = [Ev.reload]) ∧
    ((check_toggle_status
      { waitSel0 := .error "t1", reloadCall := .ok (), waitSel1 := .error "t2",
        countToggle := .ok 1, isChecked := .ok true }
      "https://example.com/settings").1.toggle_status = "NOT_FOUND" ∧
    (check_toggle_status
      { waitSel0 := .error "t1", reloadCall := .ok (), waitSel1 := .error "t2",
        countToggle := .ok 1, isChecked := .ok true }
      "https://example.com/settings").1.message =
      "Toggle element not found (timeout waiting for element after retry)" ∧
    (check_toggle_status
      { waitSel0 := .error "t1", reloadCall := .ok (), waitSel1 := .error "t2",
        countToggle := .ok 1, isChecked := .ok true }
      "https://example.com/settings").2 = [Ev.reload]) :=
  ⟨claim_C4.1 _ "https://example.com/settings" "ON" "t1" "t2" (Or.inl (by decide))
      rfl rfl rfl,
    claim_C4.2 _ "https://example.com/settings" "t1" "t2" rfl rfl rfl⟩

/-- C1 (amended): every processed task yields exactly one outcome record —
`len(results) = len(tasks)` for every batch of either script and for a
completed run — and the records are a permutation of the task list; but
within a batch they are NOT in task order: open-failure records are
appended during the opening phase, before the records of the batch's
successfully opened tasks. -/
theorem claim_C1 :
    (∀ (st : String) (batch : List TaskSpec),
      (process_batch st batch).length = batch.length ∧
      ((process_batch st batch).map (fun r => r.url)).Perm
        (batch.map (fun t => t.url))) ∧
    (∀ (batch : List CheckTaskSpec),
      (cs_process_batch batch).length = batch.length ∧
      ((cs_process_batch batch).map (fun r => r.url)).Perm
        (batch.map (fun t => t.url))) ∧
    (∀ (renv : RunEnv) (st : String), renv.browserOk = true → renv.loginOk = true →
      renv.fatalAfter = none → (run renv st).results.length = renv.rows.length) := by
  refine ⟨fun st batch => ⟨process_batch_length st batch, process_batch_urls_perm st batch⟩,
    fun batch => ⟨cs_process_batch_length batch, cs_process_batch_urls_perm batch⟩, ?_⟩
  intro renv st hb hl hf
  unfold run
  split
  · simp_all
  · simp only [hb, hl, hf, Bool.true_eq_false, if_false, and_false, if_neg]
    rw [flatten_process_length, toggleRunBatches_flatten]

/-- C1 counterexample: first task's page opens, second task's `goto`
raises; the two records are appended in the order [task 1, task 0] — not
task order. -/
theorem claim_C1_cx :
    ((process_batch "ON"
      [⟨"https://x/a", "u1", .ok (.raises "boom")⟩,
       ⟨"https://x/b", "u2", .gotoFails "timeout"⟩]).map fun r => r.url) =
      ["https://x/b", "https://x/a"] ∧
    ((process_batch "ON"
      [⟨"https://x/a", "u1", .ok (.raises "boom")⟩,
       ⟨"https://x/b", "u2", .gotoFails "timeout"⟩]).map fun r => r.url) ≠
      ["https://x/a", "https://x/b"] := by decide

theorem claim_C1_witness :
    (run { rows := [⟨"https://x/a", "u", OpenSpec.ok (.raises "boom")⟩],
           browserOk := true, loginNeeded := false, loginOk := true,
           fatalAfter := none } "ON").results.length =
      ({ rows := [⟨"https://x/a", "u", OpenSpec.ok (.raises "boom")⟩],
         browserOk := true, loginNeeded := false, loginOk := true,
         fatalAfter := none } : RunEnv).rows.length :=
  claim_C1.2.2 _ "ON" rfl rfl rfl

/-- C6 (amended): BOTH scripts split the FULL loaded task list starting
from index 0 into contiguous batches of `BATCH_SIZE` — identical slicing
in mutating and inspect mode; the login task is re-processed by the state
machine in mutating mode (`toggle_automation.py` lines 529-534,
`check_status.py` lines 431-436). -/
theorem claim_C6 :
    (∀ (l : List Nat), toggleRunBatches l = checkRunBatches l) ∧
    (∀ (l : List Nat), (toggleRunBatches l).flatten = l) ∧
    (∀ (l : List Nat),
      ((toggleRunBatches l).all fun c => c.length ≤ BATCH_SIZE) = true) := by
  refine ⟨fun l => (checkRunBatches_eq_toggle l).symm, fun l => toggleRunBatches_flatten l,
    fun l => ?_⟩
  rw [List.all_eq_true]
  intro c hc
  simpa using toggleRunBatches_len_le l c hc

/-- C6 counterexample: with 3 tasks the mutating dispatcher's first batch
is the full list including index 0 (the login task), not `tasks[1:]`. -/
theorem claim_C6_cx :
    toggleRunBatches [0, 1, 2] = [[0, 1, 2]] ∧
    specMutatingBatches [0, 1, 2] = [[1, 2]] ∧
    toggleRunBatches [0, 1, 2] ≠ specMutatingBatches [0, 1, 2] := by decide

/-- C7 (amended): for every run whose loaded task list is nonempty, the
finalization block runs exactly once — also on early aborts (no browser,
login failure, fatal error) — and the accumulated results are handed to
`save_results`; but `save_results` writes NO report when the results are
empty, so an aborted run with nothing accumulated leaves no report file. -/
theorem claim_C7 (renv : RunEnv) (st : String) (h : renv.rows ≠ []) :
    (run renv st).finalizeCount = 1 ∧
    (run renv st).report = save_results (run renv st).results ∧
    ((run renv st).results = [] → (run renv st).report = none) ∧
    ((run renv st).results ≠ [] →
      (run renv st).report = some (run renv st).results) := by
  have hlen : ¬renv.rows.length = 0 := by
    simpa [List.length_eq_zero] using h
  have h2 : (run renv st).report = save_results (run renv st).results := by
    unfold run
    rw [if_neg hlen]
  refine ⟨?_, h2, ?_, ?_⟩
  · unfold run
    rw [if_neg hlen]
  · intro hres
    rw [h2, hres]
    simp [save_results]
  · intro hres
    cases hres2 : (run renv st).results with
    | nil => exact absurd hres2 hres
    | cons a as =>
      rw [h2, hres2]
      simp [save_results]

/-- C7 counterexample: a nonempty run whose login fails finalizes with zero
results and `save_results` writes no report — the spec's "a report is still
finalized even if it is empty" does not hold. -/
theorem claim_C7_cx :
    (run { rows := [⟨"https://x/a", "u", .newPageFails "x"⟩], browserOk := true,
           loginNeeded := true, loginOk := false, fatalAfter := none }
      "ON").finalizeCount = 1 ∧
    (run { rows := [⟨"https://x/a", "u", .newPageFails "x"⟩], browserOk := true,
           loginNeeded := true, loginOk := false, fatalAfter := none }
      "ON").results = [] ∧
    (run { rows := [⟨"https://x/a", "u", .newPageFails "x"⟩], browserOk := true,
           loginNeeded := true, loginOk := false, fatalAfter := none }
      "ON").report = none := by decide

theorem claim_C7_witness :
    (run { rows := [⟨"https://x/a", "u", .newPageFails "x"⟩], browserOk := false,
           loginNeeded := false, loginOk := false, fatalAfter := none }
      "ON").finalizeCount = 1 ∧
    (run { rows := [⟨"https://x/a", "u", .newPageFails "x"⟩], browserOk := false,
           loginNeeded := false, loginOk := false, fatalAfter := none }
      "ON").report = save_results
        (run { rows := [⟨"https://x/a", "u", .newPageFails "x"⟩], browserOk := false,
               loginNeeded := false, loginOk := false, fatalAfter := none }
          "ON").results ∧
    ((run { rows := [⟨"https://x/a", "u", .newPageFails "x"⟩], browserOk := false,
            loginNeeded := false, loginOk := false, fatalAfter := none }
      "ON").results = [] →
      (run { rows := [⟨"https://x/a", "u", .newPageFails "x"⟩], browserOk := false,
             loginNeeded := false, loginOk := false, fatalAfter := none }
        "ON").report = none) ∧
    ((run { rows := [⟨"https://x/a", "u", .newPageFails "x"⟩], browserOk := false,
            loginNeeded := false, loginOk := false, fatalAfter := none }
      "ON").results ≠ [] →
      (run { rows := [⟨"https://x/a", "u", .newPageFails "x"⟩], browserOk := false,
             loginNeeded := false, loginOk := false, fatalAfter := none }
        "ON").report = some
        (run { rows := [⟨"https://x/a", "u", .newPageFails "x"⟩], browserOk := false,
               loginNeeded := false, loginOk := false, fatalAfter := none }
          "ON").results) :=
  claim_C7 _ "ON" (List.cons_ne_nil _ _)

/-- C8 (amended): provided no page navigation fails after `new_page`
succeeded (no leaked page), the net number of concurrently open pages in
the batch phase never exceeds `BATCH_SIZE`: each batch opens at most
`BATCH_SIZE` pages and closes all its tracked pages before the next batch
opens any. -/
theorem claim_C8 (specs : List TaskSpec) (h : hasGotoFail specs = false) :
    runningMax 0 (runTrace specs) ≤ (BATCH_SIZE : Int) := by
  have hng : ∀ t ∈ specs, isGotoFail t = false := by
    intro t ht
    by_contra hne
    have : specs.any isGotoFail = true := List.any_eq_true.mpr ⟨t, ht, by
      cases hgf : isGotoFail t
      · exact absurd hgf hne
      · rfl⟩
    rw [hasGotoFail] at h
    rw [h] at this
    exact Bool.noConfusion this
  unfold runTrace
  apply runTraceAux_max
  · exact toggleRunBatches_len_le specs
  · intro c hc t ht
    refine hng t ?_
    rw [← toggleRunBatches_flatten specs]
    exact List.mem_flatten.mpr ⟨c, hc, ht⟩

/-- C8 counterexample: a page whose `goto` raises is recorded as an error
but never closed; one such leak in batch 1 plus batch 2's five pages give
six concurrently open pages — above `BATCH_SIZE = 5`. -/
theorem claim_C8_cx :
    runningMax 0 (runTrace
      [⟨"https://x/u0", "a", .gotoFails "t"⟩,
       ⟨"https://x/u1", "a", .ok (.raises "e")⟩,
       ⟨"https://x/u2", "a", .ok (.raises "e")⟩,
       ⟨"https://x/u3", "a", .ok (.raises "e")⟩,
       ⟨"https://x/u4", "a", .ok (.raises "e")⟩,
       ⟨"https://x/u5", "a", .ok (.raises "e")⟩,
       ⟨"https://x/u6", "a", .ok (.raises "e")⟩,
       ⟨"https://x/u7", "a", .ok (.raises "e")⟩,
       ⟨"https://x/u8", "a", .ok (.raises "e")⟩,
       ⟨"https://x/u9", "a", .ok (.raises "e")⟩]) = 6 ∧
    (BATCH_SIZE : Int) < 6 := by decide

theorem claim_C8_witness :
    runningMax 0 (runTrace
      [⟨"https://x/u0", "a", OpenSpec.ok (.raises "e")⟩,
       ⟨"https://x/u1", "a", OpenSpec.newPageFails "e"⟩,
       ⟨"https://x/u2", "a", OpenSpec.ok (.raises "e")⟩,
       ⟨"https://x/u3", "a", OpenSpec.ok (.raises "e")⟩,
       ⟨"https://x/u4", "a", OpenSpec.ok (.raises "e")⟩,
       ⟨"https://x/u5", "a", OpenSpec.ok (.raises "e")⟩,
       ⟨"https://x/u6", "a", OpenSpec.ok (.raises "e")⟩]) ≤ (BATCH_SIZE : Int) :=
  claim_C8 _ (by rfl)

/-- C9 (amended): no exception aborts the batch — every task yields exactly
one record and any fault becomes status `error` — but only exceptions
caught at the batch boundary are truncated to 100 characters
(`Error: <text>[:100]`); an exception caught inside `set_toggle_state` is
stored verbatim, with no bound (`toggle_automation.py` lines 359-364 vs
432-443). -/
theorem claim_C9 :
    (∀ (env : ToggleEnv) (url ds w e : String),
      (pyLower (pyStrip ds) = "on" ∨ pyLower (pyStrip ds) = "off") →
      env.waitSel0 = .error w → env.reloadCall = .error e →
      (set_toggle_state env url ds).1.status = "error" ∧
      (set_toggle_state env url ds).1.message = e) ∧
    (∀ (st : String) (t : TaskSpec) (m : String), t.behavior = .ok (.raises m) →
      process_batch st [t] = [evalFailRecord st t.url t.userid m] ∧
      (evalFailRecord st t.url t.userid m).status = "error" ∧
      (evalFailRecord st t.url t.userid m).message = "Error: " ++ pyTake m 100) ∧
    (∀ (st : String) (batch : List TaskSpec),
      (process_batch st batch).length = batch.length) := by
  refine ⟨?_, ?_, fun st batch => process_batch_length st batch⟩
  · intro env url ds w e hval h0 hr
    rcases hval with hd | hd <;>
      simp [set_toggle_state, togglePath, waitRetry, hd, h0, hr]
  · intro st t m hb
    refine ⟨?_, rfl, rfl⟩
    simp [process_batch, List.filterMap_cons, hb, evalPage]

set_option maxRecDepth 4000 in
/-- C9 counterexample: a 150-character exception text caught inside
`set_toggle_state` is stored whole — not truncated to the 100-character
bound the batch boundary applies. -/
theorem claim_C9_cx :
    (set_toggle_state
      { waitSel0 := .error "w",
        reloadCall := .error "012345678901234567890123456789012345678901234567890123456789012345678901234567890123456789012345678901234567890123456789012345678901234567890123456789",
        waitSel1 := .ok (), countToggle := .ok 1, isCheckedBefore := .ok true,
        clickToggle := .ok (), forceClickToggle := .ok (), saveSels := [],
        waitAfterSave := .ok (), isCheckedAfter := .ok true }
      "https://x/a" "ON").1.status = "error" ∧
    (set_toggle_state
      { waitSel0 := .error "w",
        reloadCall := .error "012345678901234567890123456789012345678901234567890123456789012345678901234567890123456789012345678901234567890123456789012345678901234567890123456789",
        waitSel1 := .ok (), countToggle := .ok 1, isCheckedBefore := .ok true,
        clickToggle := .ok (), forceClickToggle := .ok (), saveSels := [],
        waitAfterSave := .ok (), isCheckedAfter := .ok true }
      "https://x/a" "ON").1.message.length = 150 ∧
    (set_toggle_state
      { waitSel0 := .error "w",
        reloadCall := .error "012345678901234567890123456789012345678901234567890123456789012345678901234567890123456789012345678901234567890123456789012345678901234567890123456789",
        waitSel1 := .ok (), countToggle := .ok 1, isCheckedBefore := .ok true,
        clickToggle := .ok (), forceClickToggle := .ok (), saveSels := [],
        waitAfterSave := .ok (), isCheckedAfter := .ok true }
      "https://x/a" "ON").1.message ≠
      pyTake
        ((set_toggle_state
          { waitSel0 := .error "w",
            reloadCall := .error "012345678901234567890123456789012345678901234567890123456789012345678901234567890123456789012345678901234567890123456789012345678901234567890123456789",
            waitSel1 := .ok (), countToggle := .ok 1, isCheckedBefore := .ok true,
            clickToggle := .ok (), forceClickToggle := .ok (), saveSels := [],
            waitAfterSave := .ok (), isCheckedAfter := .ok true }
          "https://x/a" "ON").1.message) 100 := by decide

theorem claim_C9_witness :
    ((set_toggle_state
      { waitSel0 := .error "w", reloadCall := .error "net::DISCONNECTED",
        waitSel1 := .ok (), countToggle := .ok 1, isCheckedBefore := .ok true,
        clickToggle := .ok (), forceClickToggle := .ok (), saveSels := [],
        waitAfterSave := .ok (), isCheckedAfter := .ok true }
      "https://x/a" "ON").1.status = "error" ∧
    (set_toggle_state
      { waitSel0 := .error "w", reloadCall := .error "net::DISCONNECTED",
        waitSel1 := .ok (), countToggle := .ok 1, isCheckedBefore := .ok true,
        clickToggle := .ok (), forceClickToggle := .ok (), saveSels := [],
        waitAfterSave := .ok (), isCheckedAfter := .ok true }
      "https://x/a" "ON").1.message = "net::DISCONNECTED") ∧
    (process_batch "ON" [⟨"https://x/a", "u", OpenSpec.ok (.raises "boom")⟩] =
      [evalFailRecord "ON" "https://x/a" "u" "boom"] ∧
    (evalFailRecord "ON" "https://x/a" "u" "boom").status = "error" ∧
    (evalFailRecord "ON" "https://x/a" "u" "boom").message =
      "Error: " ++ pyTake "boom" 100) :=
  ⟨claim_C9.1 _ "https://x/a" "ON" "w" "net::DISCONNECTED" (Or.inl (by decide)) rfl rfl,
    claim_C9.2.1 "ON" ⟨"https://x/a", "u", OpenSpec.ok (.raises "boom")⟩ "boom" rfl⟩

theorem initAutomation_cases (s st : String) (hinit : initAutomation s = some st) :
    st = "ON" ∨ st = "OFF" := by
  simp only [initAutomation] at hinit
  split at hinit
  · cases hinit
    assumption
  · exact Option.noConfusion hinit

/-- C10: the SKIPPED branch is unreachable in a run: the constructor
accepts exactly the states normalizing to `ON`/`OFF`
(`toggle_automation.py` lines 55-64), `set_toggle_state` skips exactly the
desired states whose strip+lower is not `on`/`off` (lines 240-245), and
`run` only passes the validated state, so every run's skipped count is
zero. -/
theorem claim_C10 :
    (∀ (s st : String), initAutomation s = some st → st = "ON" ∨ st = "OFF") ∧
    (∀ (env : ToggleEnv) (url ds : String),
      ((set_toggle_state env url ds).1.status = "skipped" ↔
        ¬(pyLower (pyStrip ds) = "on" ∨ pyLower (pyStrip ds) = "off"))) ∧
    (∀ (s st : String) (renv : RunEnv), initAutomation s = some st →
      countStatus "skipped" (run renv st).results = 0) := by
  refine ⟨initAutomation_cases, ?_, ?_⟩
  · intro env url ds
    constructor
    · intro hskip hval
      exact set_toggle_state_status_ne_skipped env url ds hval hskip
    · intro hval
      simp only [set_toggle_state]
      rw [if_neg hval]
  · intro s st renv hinit
    rcases initAutomation_cases s st hinit with hst | hst <;> subst hst <;>
      exact run_skip_zero _ _ (by decide)

theorem claim_C10_witness :
    countStatus "skipped"
      (run { rows := [⟨"https://x/a", "u", OpenSpec.ok (.raises "e")⟩,
                      ⟨"https://x/b", "u", OpenSpec.newPageFails "x"⟩],
             browserOk := true, loginNeeded := false, loginOk := true,
             fatalAfter := none } "ON").results = 0 :=
  claim_C10.2.2 " on " "ON" _ (by decide)
